import Mathlib

/-!
Verification of the StudySage Telegram bot (`src/studysage/bot.py`, with
`studysage_bot.py` a reduced variant of the same script): a shallow
embedding of the response chunker, the in-memory user progress store, the
four content handlers and the dispatcher, with theorems checking the
specification's claims.

Python strings are embedded as `List Char`.  The Gemini client, the
Telegram transport and the filesystem are oracle fields of an environment
record, and each handler is a pure function from that environment and the
sender's progress-store slot to its visible effects (replies sent,
download / upload / model-call counts, temp-file bookkeeping) and the
updated slot.
-/

/-! ## Response chunker -/

/-- The message splitter used by `handle_message`, `handle_photo`,
`handle_video` and `handle_voice`: Python
`[text[i:i+4000] for i in range(0, len(text), 4000)]`, written as
structural recursion (take the first 4000 characters, recurse on the
rest). -/
def chunkText : List Char → List (List Char)
  | [] => []
  | c :: cs => ((c :: cs).take 4000) :: chunkText ((c :: cs).drop 4000)
termination_by t => t.length
decreasing_by
  simp only [List.length_drop, List.length_cons]
  omega

/-- The send loop `for chunk in chunks: await update.message.reply_text(chunk)`:
each segment is appended to the transport outbox in turn, first to last. -/
def sendChunks (outbox : List (List Char)) (chunks : List (List Char)) : List (List Char) :=
  chunks.foldl (fun ob c => ob ++ [c]) outbox

/-- Whitespace as removed by Python `str.strip()` (ASCII subset). -/
def isPySpace (c : Char) : Bool :=
  c == ' ' || c == '\t' || c == '\n' || c == '\r' || c == '\x0b' || c == '\x0c'

/-- Python `str.strip()`: drop leading and trailing whitespace. -/
def stripChars (t : List Char) : List Char :=
  ((t.dropWhile isPySpace).reverse.dropWhile isPySpace).reverse

/-! ## User progress store (`StudySageBot.user_data`) -/

/-- The `preferences` sub-dictionary of a user record. -/
structure Preferences where
  difficulty : String
  reminder_time : Option String
  favorite_subjects : List String
deriving DecidableEq

/-- One value of `StudySageBot.user_data`: the per-user record created by
`get_user_data`.  The Python `set` of subjects is a `Finset`. -/
structure UserData where
  study_streak : Nat
  total_questions : Nat
  correct_answers : Nat
  subjects_studied : Finset String
  last_activity : Option String
  level : Nat
  xp : Nat
  preferences : Preferences
deriving DecidableEq

/-- The zero-state record `get_user_data` installs on first contact. -/
def initUserData : UserData where
  study_streak := 0
  total_questions := 0
  correct_answers := 0
  subjects_studied := ∅
  last_activity := none
  level := 1
  xp := 0
  preferences := { difficulty := "medium", reminder_time := none, favorite_subjects := [] }

/-- `get_user_data`: return the caller's record, creating it in the store
when absent.  The store is viewed one user at a time: `Option UserData` is
the sender's slot of the `user_data` dictionary. -/
def get_user_data (slot : Option UserData) : UserData × Option UserData :=
  match slot with
  | none => (initUserData, some initUserData)
  | some d => (d, some d)

/-- `update_user_stats(user_id, subject=None, correct=None)`: stamp
`last_activity`, add a truthy `subject` to the studied set, on a `correct`
tag bump the counters and XP (10 for correct, 2 otherwise), then recompute
the level as `min(10, xp // 100 + 1)` and raise the stored level when the
recomputed one is higher, returning the level-up flag. -/
def update_user_stats (slot : Option UserData) (now : String)
    (subject : Option String) (correct : Option Bool) : Bool × Option UserData :=
  let d0 := (get_user_data slot).1
  let d1 : UserData := { d0 with last_activity := some now }
  let d2 : UserData := match subject with
    | some s => if s = "" then d1 else { d1 with subjects_studied := insert s d1.subjects_studied }
    | none => d1
  let d3 : UserData := match correct with
    | some c =>
      let dq : UserData := { d2 with total_questions := d2.total_questions + 1 }
      if c then { dq with correct_answers := dq.correct_answers + 1, xp := dq.xp + 10 }
      else { dq with xp := dq.xp + 2 }
    | none => d2
  let new_level := min 10 (d3.xp / 100 + 1)
  if new_level > d3.level then (true, some { d3 with level := new_level })
  else (false, some d3)

/-- The record left in the store by `update_user_stats` (the updated slot is
always populated). -/
def updatedData (slot : Option UserData) (now : String)
    (subject : Option String) (correct : Option Bool) : UserData :=
  ((update_user_stats slot now subject correct).2).getD initUserData

/-- One operation on a user's store slot: a bare `get_user_data` lookup or
an `update_user_stats` call. -/
inductive StoreOp where
  | touch : StoreOp
  | record (now : String) (subject : Option String) (correct : Option Bool) : StoreOp

/-- Apply one store operation to a slot. -/
def applyOp (slot : Option UserData) : StoreOp → Option UserData
  | .touch => (get_user_data slot).2
  | .record now s c => (update_user_stats slot now s c).2

/-- Run a sequence of store operations from a starting slot. -/
def runOps (slot : Option UserData) (ops : List StoreOp) : Option UserData :=
  ops.foldl applyOp slot

/-! ## Content handlers -/

/-- Which handler a user-visible reply came from (the apology strings differ
only in the word naming the content kind). -/
inductive ContentKind where
  | textK | photoK | videoK | voiceK
deriving DecidableEq

/-- Outbound messages a content handler can send. -/
inductive Msg where
  /-- The fixed configuration message, identical in all four handlers. -/
  | serviceUnavailable : Msg
  /-- One text message carrying (a chunk of) the model's answer. -/
  | chunk (content : List Char) : Msg
  /-- The "having trouble ... try again" soft-failure message. -/
  | emptyTryAgain (k : ContentKind) : Msg
  /-- The "Sorry, I encountered an error" apology of the except branch. -/
  | errorApology (k : ContentKind) : Msg
  /-- The "your video is quite large" size rejection of `handle_video`. -/
  | videoTooLarge : Msg
deriving DecidableEq

/-- Observable effects of one handler invocation. -/
structure Outcome where
  replies : List Msg
  downloads : Nat
  uploads : Nat
  modelCalls : Nat
  downloadedFile : Bool
  deleted : Bool
deriving DecidableEq

/-- The neutral outcome: nothing sent, nothing fetched, nothing called. -/
def noEffects : Outcome where
  replies := []
  downloads := 0
  uploads := 0
  modelCalls := 0
  downloadedFile := false
  deleted := false

/-- Environment oracle for a media handler: whether the Gemini client is
configured, the declared file size (only read by `handle_video`), whether
`download_file`, `files.upload` and `generate_content` succeed or raise,
the `response.text` the model returns (`none` for an absent text), and the
current timestamp. -/
structure MediaEnv where
  configured : Bool
  fileSize : Nat
  downloadOk : Bool
  uploadOk : Bool
  genOk : Bool
  genText : Option (List Char)
  now : String
deriving DecidableEq

/-- Environment oracle for the plain-text handler `handle_message`. -/
structure TextEnv where
  configured : Bool
  genOk : Bool
  genText : Option (List Char)
deriving DecidableEq

/-- Python truthiness of `response.text` (`None` and the empty string are
falsy). -/
def textTruthy : Option (List Char) → Bool
  | some t => !t.isEmpty
  | none => false

/-- `if len(ai_response) > 4000: send each chunk; else: send it whole`. -/
def replyLong (t : List Char) : List Msg :=
  if t.length > 4000 then (chunkText t).map Msg.chunk else [Msg.chunk t]

/-- `handle_photo`: configuration guard, then inside `try`: download the
photo, upload it to Gemini, call the model, send the (possibly chunked)
response or the soft-failure message, and only then unlink the temp file;
any raise lands in `except`, which sends the apology and skips the
unlink.  The sender's store slot is never touched. -/
def handle_photo (env : MediaEnv) (slot : Option UserData) : Outcome × Option UserData :=
  if !env.configured then
    ({ noEffects with
        replies := [.serviceUnavailable] }, slot)
  else if !env.downloadOk then
    ({ noEffects with
        replies := [.errorApology .photoK]
        downloads := 1 }, slot)
  else if !env.uploadOk then
    ({ noEffects with
        replies := [.errorApology .photoK]
        downloads := 1
        uploads := 1
        downloadedFile := true }, slot)
  else if !env.genOk then
    ({ noEffects with
        replies := [.errorApology .photoK]
        downloads := 1
        uploads := 1
        modelCalls := 1
        downloadedFile := true }, slot)
  else if textTruthy env.genText then
    ({ noEffects with
        replies := replyLong (stripChars (env.genText.getD []))
        downloads := 1
        uploads := 1
        modelCalls := 1
        downloadedFile := true
        deleted := true }, slot)
  else
    ({ noEffects with
        replies := [.emptyTryAgain .photoK]
        downloads := 1
        uploads := 1
        modelCalls := 1
        downloadedFile := true
        deleted := true }, slot)

/-- `handle_video`: like `handle_photo` but with the 20 MiB size guard
`if video.file_size > 20 * 1024 * 1024` checked before the download. -/
def handle_video (env : MediaEnv) (slot : Option UserData) : Outcome × Option UserData :=
  if !env.configured then
    ({ noEffects with
        replies := [.serviceUnavailable] }, slot)
  else if env.fileSize > 20 * 1024 * 1024 then
    ({ noEffects with
        replies := [.videoTooLarge] }, slot)
  else if !env.downloadOk then
    ({ noEffects with
        replies := [.errorApology .videoK]
        downloads := 1 }, slot)
  else if !env.uploadOk then
    ({ noEffects with
        replies := [.errorApology .videoK]
        downloads := 1
        uploads := 1
        downloadedFile := true }, slot)
  else if !env.genOk then
    ({ noEffects with
        replies := [.errorApology .videoK]
        downloads := 1
        uploads := 1
        modelCalls := 1
        downloadedFile := true }, slot)
  else if textTruthy env.genText then
    ({ noEffects with
        replies := replyLong (stripChars (env.genText.getD []))
        downloads := 1
        uploads := 1
        modelCalls := 1
        downloadedFile := true
        deleted := true }, slot)
  else
    ({ noEffects with
        replies := [.emptyTryAgain .videoK]
        downloads := 1
        uploads := 1
        modelCalls := 1
        downloadedFile := true
        deleted := true }, slot)

/-- The fixed header the voice handler puts before the model's text. -/
def voiceHeader : List Char := ("🎙️ **Voice Message Processed:**\n\n").toList

/-- Did `handle_voice` reach its success branch (client configured, download,
upload and model call all succeeded, and the response text is truthy)? -/
def voiceSuccess (env : MediaEnv) : Bool :=
  env.configured && env.downloadOk && env.uploadOk && env.genOk && textTruthy env.genText

/-- `handle_voice`: like `handle_photo` without a caption; on the success
branch the reply is the prefixed, possibly chunked text, and
`update_user_stats(user_id)` is called with no subject and no correct tag
before the temp file is unlinked. -/
def handle_voice (env : MediaEnv) (slot : Option UserData) : Outcome × Option UserData :=
  if !env.configured then
    ({ noEffects with
        replies := [.serviceUnavailable] }, slot)
  else if !env.downloadOk then
    ({ noEffects with
        replies := [.errorApology .voiceK]
        downloads := 1 }, slot)
  else if !env.uploadOk then
    ({ noEffects with
        replies := [.errorApology .voiceK]
        downloads := 1
        uploads := 1
        downloadedFile := true }, slot)
  else if !env.genOk then
    ({ noEffects with
        replies := [.errorApology .voiceK]
        downloads := 1
        uploads := 1
        modelCalls := 1
        downloadedFile := true }, slot)
  else if textTruthy env.genText then
    ({ noEffects with
        replies := replyLong (voiceHeader ++ stripChars (env.genText.getD []))
        downloads := 1
        uploads := 1
        modelCalls := 1
        downloadedFile := true
        deleted := true },
      (update_user_stats slot env.now none none).2)
  else
    ({ noEffects with
        replies := [.emptyTryAgain .voiceK]
        downloads := 1
        uploads := 1
        modelCalls := 1
        downloadedFile := true
        deleted := true }, slot)

/-- `handle_message`: configuration guard, model call on the built prompt,
then chunked reply / soft-failure / apology.  No media, no store access. -/
def handle_message (env : TextEnv) (slot : Option UserData) : Outcome × Option UserData :=
  if !env.configured then
    ({ noEffects with
        replies := [.serviceUnavailable] }, slot)
  else if !env.genOk then
    ({ noEffects with
        replies := [.errorApology .textK]
        modelCalls := 1 }, slot)
  else if textTruthy env.genText then
    ({ noEffects with
        replies := replyLong (stripChars (env.genText.getD []))
        modelCalls := 1 }, slot)
  else
    ({ noEffects with
        replies := [.emptyTryAgain .textK]
        modelCalls := 1 }, slot)

/-! ## Dispatcher (`main`) -/

/-- One inbound Telegram update: a message (optional text, media flags) or a
button-press callback query. -/
inductive Event where
  | message (mtext : Option (List Char)) (hasPhoto : Bool) (hasVideo : Bool) (hasVoice : Bool) : Event
  | callbackQuery (data : List Char) : Event
deriving DecidableEq

/-- Which registered handler an update is routed to. -/
inductive Route where
  | startCmd | helpCmd | clearCmd | quizCmd | progressCmd | subjectsCmd
  | callbackRoute | photoRoute | videoRoute | voiceRoute | textRoute
deriving DecidableEq

/-- The command token of a message text: for text beginning with `/`, the
characters up to the first space, cut at an optional `@botname` suffix
(the matching rule of the transport library's `CommandHandler`). -/
def commandToken (t : List Char) : Option (List Char) :=
  match t with
  | [] => none
  | c :: rest =>
    if c = '/' then some ((rest.takeWhile (fun x => x != ' ')).takeWhile (fun x => x != '@'))
    else none

/-- Does a message text begin with `/` (the transport library's `COMMAND`
filter)? -/
def startsWithSlash (t : List Char) : Bool :=
  match t with
  | [] => false
  | c :: _ => c = '/'

/-- `CommandHandler(name, ...)`: matches a message whose command token is
`name`. -/
def isCommandEvent (name : List Char) : Event → Bool
  | .message (some t) _ _ _ => commandToken t == some name
  | _ => false

/-- `CallbackQueryHandler`: matches button-press callback updates. -/
def isCallbackEvent : Event → Bool
  | .callbackQuery _ => true
  | _ => false

/-- `MessageHandler(filters.PHOTO, ...)`. -/
def isPhotoEvent : Event → Bool
  | .message _ p _ _ => p
  | _ => false

/-- `MessageHandler(filters.VIDEO, ...)`. -/
def isVideoEvent : Event → Bool
  | .message _ _ v _ => v
  | _ => false

/-- `MessageHandler(filters.VOICE, ...)`. -/
def isVoiceEvent : Event → Bool
  | .message _ _ _ w => w
  | _ => false

/-- `MessageHandler(filters.TEXT & ~filters.COMMAND, ...)`: a truthy message
text that does not begin with `/`. -/
def isTextNonCommandEvent : Event → Bool
  | .message (some t) _ _ _ => !t.isEmpty && !startsWithSlash t
  | _ => false

/-- The dispatch of `main()`: the registered handlers are tried in
registration order — the six `CommandHandler`s, the
`CallbackQueryHandler`, the photo, video and voice `MessageHandler`s, and
last the text handler — and the first whose check passes receives the
update; an update matching none is ignored. -/
def dispatch (e : Event) : Option Route :=
  if isCommandEvent ("start").toList e then some .startCmd
  else if isCommandEvent ("help").toList e then some .helpCmd
  else if isCommandEvent ("clear").toList e then some .clearCmd
  else if isCommandEvent ("quiz").toList e then some .quizCmd
  else if isCommandEvent ("progress").toList e then some .progressCmd
  else if isCommandEvent ("subjects").toList e then some .subjectsCmd
  else if isCallbackEvent e then some .callbackRoute
  else if isPhotoEvent e then some .photoRoute
  else if isVideoEvent e then some .videoRoute
  else if isVoiceEvent e then some .voiceRoute
  else if isTextNonCommandEvent e then some .textRoute
  else none

/-! ## Theorems: response chunker -/

/-- The send loop appends the chunks to the outbox in list order. -/
theorem sendChunks_eq (outbox chunks : List (List Char)) :
    sendChunks outbox chunks = outbox ++ chunks := by
  induction chunks generalizing outbox with
  | nil => simp [sendChunks]
  | cons c cs ih =>
    simp only [sendChunks, List.foldl_cons] at *
    rw [ih]
    simp

/-- Concatenating the chunker's segments restores the input. -/
theorem chunkText_flatten (t : List Char) : (chunkText t).flatten = t := by
  match t with
  | [] => simp [chunkText]
  | c :: cs =>
    have ih := chunkText_flatten ((c :: cs).drop 4000)
    rw [chunkText]
    simp only [List.flatten_cons, ih, List.take_append_drop]
termination_by t.length
decreasing_by
  simp only [List.length_drop, List.length_cons]
  omega

/-- The chunker returns no segments exactly on the empty input. -/
theorem chunkText_eq_nil {t : List Char} : chunkText t = [] ↔ t = [] := by
  cases t with
  | nil => simp [chunkText]
  | cons c cs => simp [chunkText]

/-- Every segment except the last has length exactly 4000. -/
theorem chunkText_dropLast_length (t : List Char) :
    ∀ seg ∈ (chunkText t).dropLast, seg.length = 4000 := by
  match t with
  | [] => intro seg h; simp [chunkText] at h
  | c :: cs =>
    have ih := chunkText_dropLast_length ((c :: cs).drop 4000)
    intro seg h
    rw [chunkText] at h
    rcases hrest : chunkText ((c :: cs).drop 4000) with _ | ⟨r, rs⟩
    · rw [hrest] at h
      simp at h
    · rw [hrest] at h
      have hlen : 4000 < (c :: cs).length := by
        have hne : (c :: cs).drop 4000 ≠ [] := by
          intro hd
          rw [hd] at hrest
          simp [chunkText] at hrest
        rw [ne_eq, List.drop_eq_nil_iff] at hne
        omega
      rw [List.dropLast_cons₂] at h
      rcases List.mem_cons.mp h with rfl | hmem
      · rw [List.length_take]
        omega
      · exact ih seg (hrest ▸ hmem)
termination_by t.length
decreasing_by
  simp only [List.length_drop, List.length_cons]
  omega

/-- C1: for every text, concatenating the chunker's segments
(`text[i:i+4000]` for `i = 0, 4000, 8000, ...`) yields the original text
exactly, every segment except the last has length exactly 4000, and the
send loop emits the segments in order, first to last. -/
theorem c1_chunker_roundtrip (t : List Char) :
    (chunkText t).flatten = t ∧
    (∀ seg ∈ (chunkText t).dropLast, seg.length = 4000) ∧
    sendChunks [] (chunkText t) = chunkText t := by
  refine ⟨chunkText_flatten t, chunkText_dropLast_length t, ?_⟩
  rw [sendChunks_eq]
  simp

/-- C1 witness: the round-trip instantiated on a concrete text. -/
theorem c1_chunker_roundtrip_witness :
    (chunkText (("hi").toList)).flatten = ("hi").toList ∧
    (∀ seg ∈ (chunkText (("hi").toList)).dropLast, seg.length = 4000) ∧
    sendChunks [] (chunkText (("hi").toList)) = chunkText (("hi").toList) :=
  c1_chunker_roundtrip (("hi").toList)

/-! ## Theorems: user progress store -/

/-- `update_user_stats` always leaves a populated slot, holding
`updatedData`. -/
theorem update_user_stats_snd (slot : Option UserData) (now : String)
    (subject : Option String) (correct : Option Bool) :
    (update_user_stats slot now subject correct).2 =
      some (updatedData slot now subject correct) := by
  simp only [updatedData, update_user_stats]
  split <;> rfl

/-- `update_user_stats` reads the slot only through `get_user_data`, so an
empty slot behaves like the zero state. -/
theorem update_user_stats_none (now : String) (subject : Option String)
    (correct : Option Bool) :
    update_user_stats none now subject correct =
      update_user_stats (some initUserData) now subject correct := rfl

/-- Field-by-field value of the record `update_user_stats` stores: the
timestamp is stamped, a truthy subject is inserted, a `correct` tag bumps
the question counter and grants 10 or 2 XP, and the level is raised to the
recomputed `min 10 (xp / 100 + 1)` when that exceeds the stored level. -/
theorem updatedData_fields (d : UserData) (now : String) (subject : Option String)
    (correct : Option Bool) :
    updatedData (some d) now subject correct =
      { d with
          last_activity := some now
          subjects_studied := match subject with
            | some s => if s = "" then d.subjects_studied else insert s d.subjects_studied
            | none => d.subjects_studied
          total_questions := match correct with
            | some _ => d.total_questions + 1
            | none => d.total_questions
          correct_answers := match correct with
            | some true => d.correct_answers + 1
            | _ => d.correct_answers
          xp := match correct with
            | some true => d.xp + 10
            | some false => d.xp + 2
            | none => d.xp
          level := max d.level (min 10 ((match correct with
            | some true => d.xp + 10
            | some false => d.xp + 2
            | none => d.xp) / 100 + 1)) } := by
  rcases subject with _ | s <;> rcases correct with _ | c <;>
    (try rcases c with _ | _) <;>
    (simp only [updatedData, update_user_stats, get_user_data, Option.getD_some]
     split_ifs <;> simp_all <;> try omega)

/-- C2: with `correct=true` the update grants exactly 10 XP and increments
both counters; with `correct=false` it grants exactly 2 XP and increments
only the question counter; with no tag it leaves XP and both counters
unchanged; a provided (truthy) subject is inserted into the studied set,
idempotently; and `last_activity` is stamped on every call. -/
theorem c2_update_user_stats (d : UserData) (now : String) (s : String) (hs : s ≠ "") :
    (updatedData (some d) now (some s) (some true)).xp = d.xp + 10 ∧
    (updatedData (some d) now (some s) (some true)).total_questions = d.total_questions + 1 ∧
    (updatedData (some d) now (some s) (some true)).correct_answers = d.correct_answers + 1 ∧
    (updatedData (some d) now (some s) (some false)).xp = d.xp + 2 ∧
    (updatedData (some d) now (some s) (some false)).total_questions = d.total_questions + 1 ∧
    (updatedData (some d) now (some s) (some false)).correct_answers = d.correct_answers ∧
    (updatedData (some d) now none none).xp = d.xp ∧
    (updatedData (some d) now none none).total_questions = d.total_questions ∧
    (updatedData (some d) now none none).correct_answers = d.correct_answers ∧
    (∀ c : Option Bool,
      (updatedData (some d) now (some s) c).subjects_studied = insert s d.subjects_studied) ∧
    (s ∈ d.subjects_studied →
      (updatedData (some d) now (some s) (some true)).subjects_studied.card =
        d.subjects_studied.card) ∧
    (∀ subject : Option String, ∀ c : Option Bool,
      (updatedData (some d) now subject c).last_activity = some now) := by
  refine ⟨?_, ?_, ?_, ?_, ?_, ?_, ?_, ?_, ?_, ?_, ?_, ?_⟩
  · simp [updatedData_fields]
  · simp [updatedData_fields]
  · simp [updatedData_fields]
  · simp [updatedData_fields]
  · simp [updatedData_fields]
  · simp [updatedData_fields]
  · simp [updatedData_fields]
  · simp [updatedData_fields]
  · simp [updatedData_fields]
  · intro c
    rcases c with _ | c
    · simp [updatedData_fields, hs]
    · simp [updatedData_fields, hs]
  · intro hmem
    simp [updatedData_fields, hs, Finset.insert_eq_self.mpr hmem]
  · intro subject c
    simp [updatedData_fields]

/-- C2 witness: the update rules instantiated on a concrete record and
subject. -/
theorem c2_update_user_stats_witness :
    (updatedData (some initUserData) "t" (some "Math") (some true)).xp = initUserData.xp + 10 ∧
    (updatedData (some initUserData) "t" (some "Math") (some true)).total_questions =
      initUserData.total_questions + 1 ∧
    (updatedData (some initUserData) "t" (some "Math") (some true)).correct_answers =
      initUserData.correct_answers + 1 ∧
    (updatedData (some initUserData) "t" (some "Math") (some false)).xp = initUserData.xp + 2 ∧
    (updatedData (some initUserData) "t" (some "Math") (some false)).total_questions =
      initUserData.total_questions + 1 ∧
    (updatedData (some initUserData) "t" (some "Math") (some false)).correct_answers =
      initUserData.correct_answers ∧
    (updatedData (some initUserData) "t" none none).xp = initUserData.xp ∧
    (updatedData (some initUserData) "t" none none).total_questions =
      initUserData.total_questions ∧
    (updatedData (some initUserData) "t" none none).correct_answers =
      initUserData.correct_answers ∧
    (∀ c : Option Bool,
      (updatedData (some initUserData) "t" (some "Math") c).subjects_studied =
        insert "Math" initUserData.subjects_studied) ∧
    ("Math" ∈ initUserData.subjects_studied →
      (updatedData (some initUserData) "t" (some "Math") (some true)).subjects_studied.card =
        initUserData.subjects_studied.card) ∧
    (∀ subject : Option String, ∀ c : Option Bool,
      (updatedData (some initUserData) "t" subject c).last_activity = some "t") :=
  c2_update_user_stats initUserData "t" "Math" (by decide)

/-- The level invariant of the data model: `level` is the value recomputed
from `xp`, `min(10, xp // 100 + 1)`. -/
def LevelInv (d : UserData) : Prop :=
  d.level = min 10 (d.xp / 100 + 1)

/-- The zero state satisfies the level invariant. -/
theorem levelInv_init : LevelInv initUserData := by
  rw [LevelInv]
  decide

/-- `update_user_stats` preserves the level invariant: XP never decreases,
so the recomputed level never drops below the stored one, and the store
keeps exactly the recomputed value. -/
theorem updatedData_levelInv (d : UserData) (now : String) (subject : Option String)
    (correct : Option Bool) (h : LevelInv d) :
    LevelInv (updatedData (some d) now subject correct) := by
  rw [LevelInv] at *
  rw [updatedData_fields]
  rcases correct with _ | c
  · simp
    omega
  · rcases c with _ | _ <;> (simp; omega)

/-- Any slot reachable by store operations from a slot satisfying the level
invariant still satisfies it. -/
theorem runOps_levelInv (ops : List StoreOp) :
    ∀ slot : Option UserData, (∀ d₀, slot = some d₀ → LevelInv d₀) →
      ∀ d, runOps slot ops = some d → LevelInv d := by
  induction ops with
  | nil =>
    intro slot hslot d hd
    exact hslot d hd
  | cons op ops ih =>
    intro slot hslot d hd
    rw [runOps, List.foldl_cons] at hd
    refine ih (applyOp slot op) ?_ d hd
    intro d₀ hd₀
    rcases op with _ | ⟨now, s, c⟩
    · rcases slot with _ | dS
      · simp [applyOp, get_user_data] at hd₀
        rw [← hd₀]
        exact levelInv_init
      · simp [applyOp, get_user_data] at hd₀
        rw [← hd₀]
        exact hslot dS rfl
    · rcases slot with _ | dS
      · rw [applyOp, update_user_stats_none, update_user_stats_snd] at hd₀
        rw [← Option.some_inj.mp hd₀]
        exact updatedData_levelInv initUserData now s c levelInv_init
      · rw [applyOp, update_user_stats_snd] at hd₀
        rw [← Option.some_inj.mp hd₀]
        exact updatedData_levelInv dS now s c (hslot dS rfl)

/-- C3: every user record reachable from the zero state (`xp=0`, `level=1`)
by any sequence of store operations has `level = min 10 (xp / 100 + 1)`,
and consequently `level` lies in `[1, 10]`. -/
theorem c3_level_invariant (ops : List StoreOp) (d : UserData)
    (h : runOps (some initUserData) ops = some d) :
    d.level = min 10 (d.xp / 100 + 1) ∧ 1 ≤ d.level ∧ d.level ≤ 10 := by
  have hinv : LevelInv d := by
    refine runOps_levelInv ops (some initUserData) ?_ d h
    intro d₀ hd₀
    rw [← Option.some_inj.mp hd₀]
    exact levelInv_init
  rw [LevelInv] at hinv
  refine ⟨hinv, ?_, ?_⟩ <;> omega

/-- C3 witness: the invariant holds at the record reached by one correct
Math answer from the zero state. -/
theorem c3_level_invariant_witness :
    ∃ d, runOps (some initUserData) [StoreOp.record "t" (some "Math") (some true)] = some d ∧
      d.level = min 10 (d.xp / 100 + 1) ∧ 1 ≤ d.level ∧ d.level ≤ 10 :=
  ⟨_, rfl, c3_level_invariant [StoreOp.record "t" (some "Math") (some true)] _ rfl⟩

/-- C4: on a record with `xp = 95` at level 1, a `correct=true` update
(10 XP, to 105) reports a level-up and stores level 2; on a record with
`xp = 100` at level 2, a `correct=false` update (2 XP, to 102) reports no
level-up and the record stays at level 2. -/
theorem c4_level_transitions (d₁ d₂ : UserData) (now : String)
    (h1x : d₁.xp = 95) (h1l : d₁.level = 1) (h2x : d₂.xp = 100) (h2l : d₂.level = 2) :
    (update_user_stats (some d₁) now none (some true)).1 = true ∧
    (updatedData (some d₁) now none (some true)).level = 2 ∧
    (update_user_stats (some d₂) now none (some false)).1 = false ∧
    (updatedData (some d₂) now none (some false)).level = 2 := by
  refine ⟨?_, ?_, ?_, ?_⟩
  · simp [update_user_stats, get_user_data, h1x, h1l]
  · rw [updatedData_fields]
    simp [h1x, h1l]
  · simp [update_user_stats, get_user_data, h2x, h2l]
  · rw [updatedData_fields]
    simp [h2x, h2l]

/-- C4 witness: the two transitions on concrete records with `xp = 95`
(level 1) and `xp = 100` (level 2). -/
theorem c4_level_transitions_witness :
    (update_user_stats (some { initUserData with xp := 95 }) "t" none (some true)).1 = true ∧
    (updatedData (some { initUserData with xp := 95 }) "t" none (some true)).level = 2 ∧
    (update_user_stats (some { initUserData with xp := 100, level := 2 }) "t" none
      (some false)).1 = false ∧
    (updatedData (some { initUserData with xp := 100, level := 2 }) "t" none
      (some false)).level = 2 :=
  c4_level_transitions { initUserData with xp := 95 }
    { initUserData with xp := 100, level := 2 } "t" rfl rfl rfl rfl

/-! ## Theorems: content handlers -/

/-- C5 counterexample: with the client configured and the photo downloaded,
an upload failure raises before the cleanup line, so the handler returns
with the downloaded temp file still on disk — the claim that every exit
path deletes it is false. -/
theorem c5_counterexample :
    (handle_photo
      { configured := true
        fileSize := 0
        downloadOk := true
        uploadOk := false
        genOk := true
        genText := some (("x").toList)
        now := "t" } none).1.downloadedFile = true ∧
    (handle_photo
      { configured := true
        fileSize := 0
        downloadOk := true
        uploadOk := false
        genOk := true
        genText := some (("x").toList)
        now := "t" } none).1.deleted = false := by
  constructor <;> rfl

/-- C5 (amended): after a successful download, the photo, video and voice
handlers delete the temporary file exactly when no exception is raised
afterwards — the unlink runs on the success and empty-response paths, but
an exception during model upload or inference skips it. -/
theorem c5_cleanup_on_normal_paths (env : MediaEnv) (slot : Option UserData)
    (hc : env.configured = true) (hd : env.downloadOk = true) :
    ((handle_photo env slot).1.downloadedFile = true ∧
      (handle_photo env slot).1.deleted = (env.uploadOk && env.genOk)) ∧
    (env.fileSize ≤ 20 * 1024 * 1024 →
      (handle_video env slot).1.downloadedFile = true ∧
      (handle_video env slot).1.deleted = (env.uploadOk && env.genOk)) ∧
    ((handle_voice env slot).1.downloadedFile = true ∧
      (handle_voice env slot).1.deleted = (env.uploadOk && env.genOk)) := by
  refine ⟨?_, fun hsz => ?_, ?_⟩ <;>
    (simp only [handle_photo, handle_video, handle_voice]
     split_ifs <;> simp_all [noEffects] <;> omega)

/-- C5 witness: the amended cleanup rule on a concrete successful run. -/
theorem c5_cleanup_on_normal_paths_witness :
    (((handle_photo
      { configured := true
        fileSize := 0
        downloadOk := true
        uploadOk := true
        genOk := true
        genText := some (("x").toList)
        now := "t" } none).1.downloadedFile = true ∧
      (handle_photo
      { configured := true
        fileSize := 0
        downloadOk := true
        uploadOk := true
        genOk := true
        genText := some (("x").toList)
        now := "t" } none).1.deleted = (true && true)) ∧
    ((0 : Nat) ≤ 20 * 1024 * 1024 →
      (handle_video
      { configured := true
        fileSize := 0
        downloadOk := true
        uploadOk := true
        genOk := true
        genText := some (("x").toList)
        now := "t" } none).1.downloadedFile = true ∧
      (handle_video
      { configured := true
        fileSize := 0
        downloadOk := true
        uploadOk := true
        genOk := true
        genText := some (("x").toList)
        now := "t" } none).1.deleted = (true && true)) ∧
    ((handle_voice
      { configured := true
        fileSize := 0
        downloadOk := true
        uploadOk := true
        genOk := true
        genText := some (("x").toList)
        now := "t" } none).1.downloadedFile = true ∧
      (handle_voice
      { configured := true
        fileSize := 0
        downloadOk := true
        uploadOk := true
        genOk := true
        genText := some (("x").toList)
        now := "t" } none).1.deleted = (true && true))) :=
  c5_cleanup_on_normal_paths
    { configured := true
      fileSize := 0
      downloadOk := true
      uploadOk := true
      genOk := true
      genText := some (("x").toList)
      now := "t" } none rfl rfl

/-- C6: whenever the model call raises or returns an empty result, every
content handler leaves the sender's progress-store slot exactly as it was
— a failed AI call never partially updates XP or stats. -/
theorem c6_failed_model_preserves_store (envT : TextEnv) (env : MediaEnv)
    (slotT slotP slotV slotW : Option UserData)
    (hT : envT.genOk = false ∨ textTruthy envT.genText = false)
    (hM : env.genOk = false ∨ textTruthy env.genText = false) :
    (handle_message envT slotT).2 = slotT ∧
    (handle_photo env slotP).2 = slotP ∧
    (handle_video env slotV).2 = slotV ∧
    (handle_voice env slotW).2 = slotW := by
  refine ⟨?_, ?_, ?_, ?_⟩ <;>
    (simp only [handle_message, handle_photo, handle_video, handle_voice]
     split_ifs <;> simp_all)

/-- C6 witness: a concrete raising model call leaves a concrete slot
untouched in all four handlers. -/
theorem c6_failed_model_preserves_store_witness :
    (handle_message { configured := true, genOk := false, genText := none }
      (some initUserData)).2 = some initUserData ∧
    (handle_photo
      { configured := true
        fileSize := 0
        downloadOk := true
        uploadOk := true
        genOk := false
        genText := none
        now := "t" } (some initUserData)).2 = some initUserData ∧
    (handle_video
      { configured := true
        fileSize := 0
        downloadOk := true
        uploadOk := true
        genOk := false
        genText := none
        now := "t" } (some initUserData)).2 = some initUserData ∧
    (handle_voice
      { configured := true
        fileSize := 0
        downloadOk := true
        uploadOk := true
        genOk := false
        genText := none
        now := "t" } (some initUserData)).2 = some initUserData :=
  c6_failed_model_preserves_store
    { configured := true, genOk := false, genText := none }
    { configured := true
      fileSize := 0
      downloadOk := true
      uploadOk := true
      genOk := false
      genText := none
      now := "t" }
    (some initUserData) (some initUserData) (some initUserData) (some initUserData)
    (Or.inl rfl) (Or.inl rfl)

/-- C7: with the model client unconfigured, every content handler replies
with the fixed service-unavailable message and returns at once, with zero
downloads, zero uploads, zero model calls and an untouched store slot. -/
theorem c7_unconfigured_short_circuit (envT : TextEnv) (env : MediaEnv)
    (slotT slot : Option UserData)
    (hT : envT.configured = false) (hM : env.configured = false) :
    handle_message envT slotT = ({ noEffects with replies := [.serviceUnavailable] }, slotT) ∧
    handle_photo env slot = ({ noEffects with replies := [.serviceUnavailable] }, slot) ∧
    handle_video env slot = ({ noEffects with replies := [.serviceUnavailable] }, slot) ∧
    handle_voice env slot = ({ noEffects with replies := [.serviceUnavailable] }, slot) := by
  simp [handle_message, handle_photo, handle_video, handle_voice, hT, hM]

/-- C7 witness: the short circuit on concrete unconfigured environments. -/
theorem c7_unconfigured_short_circuit_witness :
    handle_message { configured := false, genOk := true, genText := none } none =
      ({ noEffects with replies := [.serviceUnavailable] }, none) ∧
    handle_photo
      { configured := false
        fileSize := 0
        downloadOk := true
        uploadOk := true
        genOk := true
        genText := none
        now := "t" } none =
      ({ noEffects with replies := [.serviceUnavailable] }, none) ∧
    handle_video
      { configured := false
        fileSize := 0
        downloadOk := true
        uploadOk := true
        genOk := true
        genText := none
        now := "t" } none =
      ({ noEffects with replies := [.serviceUnavailable] }, none) ∧
    handle_voice
      { configured := false
        fileSize := 0
        downloadOk := true
        uploadOk := true
        genOk := true
        genText := none
        now := "t" } none =
      ({ noEffects with replies := [.serviceUnavailable] }, none) :=
  c7_unconfigured_short_circuit
    { configured := false, genOk := true, genText := none }
    { configured := false
      fileSize := 0
      downloadOk := true
      uploadOk := true
      genOk := true
      genText := none
      now := "t" } none none rfl rfl

/-- C8: a video whose declared size exceeds 20 MiB is answered with the
size-specific message and the handler returns before any download attempt
(zero downloads, zero uploads, zero model calls, untouched slot). -/
theorem c8_video_size_guard (env : MediaEnv) (slot : Option UserData)
    (hc : env.configured = true) (hs : 20 * 1024 * 1024 < env.fileSize) :
    handle_video env slot = ({ noEffects with replies := [.videoTooLarge] }, slot) := by
  simp [handle_video, hc, hs]

/-- C8 witness: the size guard fires one byte over the 20 MiB limit. -/
theorem c8_video_size_guard_witness :
    handle_video
      { configured := true
        fileSize := 20 * 1024 * 1024 + 1
        downloadOk := true
        uploadOk := true
        genOk := true
        genText := none
        now := "t" } none =
      ({ noEffects with replies := [.videoTooLarge] }, none) :=
  c8_video_size_guard
    { configured := true
      fileSize := 20 * 1024 * 1024 + 1
      downloadOk := true
      uploadOk := true
      genOk := true
      genText := none
      now := "t" } none rfl (by decide)

/-- C10: among the content handlers only the voice handler writes the
progress store — the text, photo and video handlers return the sender's
slot unchanged in every environment; a failed voice turn also leaves it
unchanged, and a successful one stores the prior record with only
`last_activity` stamped and the level recomputed (0 XP granted, so for any
record satisfying the level invariant the level is unchanged). -/
theorem c10_only_voice_writes (envT : TextEnv) (envP envV envF envS : MediaEnv)
    (slotT slotP slotV slotF slotS : Option UserData)
    (hfail : voiceSuccess envF = false) (hsucc : voiceSuccess envS = true) :
    (handle_message envT slotT).2 = slotT ∧
    (handle_photo envP slotP).2 = slotP ∧
    (handle_video envV slotV).2 = slotV ∧
    (handle_voice envF slotF).2 = slotF ∧
    (handle_voice envS slotS).2 =
      some { slotS.getD initUserData with
               last_activity := some envS.now
               level := max (slotS.getD initUserData).level
                 (min 10 ((slotS.getD initUserData).xp / 100 + 1)) } := by
  refine ⟨?_, ?_, ?_, ?_, ?_⟩
  · simp only [handle_message]
    split_ifs <;> rfl
  · simp only [handle_photo]
    split_ifs <;> rfl
  · simp only [handle_video]
    split_ifs <;> rfl
  · simp only [voiceSuccess, Bool.and_eq_false_iff] at hfail
    simp only [handle_voice]
    split_ifs <;> simp_all
  · simp only [voiceSuccess, Bool.and_eq_true] at hsucc
    obtain ⟨⟨⟨⟨h1, h2⟩, h3⟩, h4⟩, h5⟩ := hsucc
    simp only [handle_voice, h1, h2, h3, h4, h5, Bool.not_true, Bool.false_eq_true,
      if_false, if_true]
    rcases slotS with _ | d
    · rw [update_user_stats_none, update_user_stats_snd, updatedData_fields]
      simp
    · rw [update_user_stats_snd, updatedData_fields]
      simp

/-- C10 witness: the frame conditions on concrete environments — a failed
voice turn (unconfigured) and a successful one on an empty slot. -/
theorem c10_only_voice_writes_witness :
    (handle_message { configured := true, genOk := true, genText := some (("x").toList) }
      none).2 = none ∧
    (handle_photo
      { configured := true
        fileSize := 0
        downloadOk := true
        uploadOk := true
        genOk := true
        genText := some (("x").toList)
        now := "t" } none).2 = none ∧
    (handle_video
      { configured := true
        fileSize := 0
        downloadOk := true
        uploadOk := true
        genOk := true
        genText := some (("x").toList)
        now := "t" } none).2 = none ∧
    (handle_voice
      { configured := false
        fileSize := 0
        downloadOk := true
        uploadOk := true
        genOk := true
        genText := some (("x").toList)
        now := "t" } none).2 = none ∧
    (handle_voice
      { configured := true
        fileSize := 0
        downloadOk := true
        uploadOk := true
        genOk := true
        genText := some (("x").toList)
        now := "t" } none).2 =
      some { (none : Option UserData).getD initUserData with
               last_activity := some "t"
               level := max ((none : Option UserData).getD initUserData).level
                 (min 10 (((none : Option UserData).getD initUserData).xp / 100 + 1)) } :=
  c10_only_voice_writes
    { configured := true, genOk := true, genText := some (("x").toList) }
    { configured := true
      fileSize := 0
      downloadOk := true
      uploadOk := true
      genOk := true
      genText := some (("x").toList)
      now := "t" }
    { configured := true
      fileSize := 0
      downloadOk := true
      uploadOk := true
      genOk := true
      genText := some (("x").toList)
      now := "t" }
    { configured := false
      fileSize := 0
      downloadOk := true
      uploadOk := true
      genOk := true
      genText := some (("x").toList)
      now := "t" }
    { configured := true
      fileSize := 0
      downloadOk := true
      uploadOk := true
      genOk := true
      genText := some (("x").toList)
      now := "t" }
    none none none none none rfl rfl

/-! ## Theorems: dispatcher -/

/-- Text with no leading slash has no command token. -/
theorem commandToken_none_of_no_slash {t : List Char} (h : startsWithSlash t = false) :
    commandToken t = none := by
  cases t with
  | nil => rfl
  | cons c cs =>
    simp only [startsWithSlash, decide_eq_false_iff_not] at h
    simp [commandToken, h]

/-- A command handler checks exactly the message's command token. -/
theorem isCommandEvent_message (name t : List Char) (p v w : Bool) :
    isCommandEvent name (.message (some t) p v w) = (commandToken t == some name) := rfl

set_option maxHeartbeats 1000000 in
/-- An update routed to the generic text handler passed that handler's
filter, `TEXT & ~COMMAND`. -/
theorem dispatch_textRoute_check {e : Event} (h : dispatch e = some Route.textRoute) :
    isTextNonCommandEvent e = true := by
  simp only [dispatch] at h
  repeat' split at h
  all_goals first | exact absurd h (by decide) | assumption

/-- C9: the dispatcher is first-match-wins over the registration order — a
message carrying one of the six command tokens goes to that command's
handler whatever media flags it carries; a message whose text begins with
`/` is never routed to the generic text handler; callbacks go to the
callback handler; media messages go to the photo, video, voice handlers in
that priority order; and a non-empty non-command text goes to the text
handler. -/
theorem c9_dispatch_priority :
    (∀ t p v w, startsWithSlash t = true →
      dispatch (.message (some t) p v w) ≠ some .textRoute) ∧
    (∀ t p v w, commandToken t = some (("start").toList) →
      dispatch (.message (some t) p v w) = some .startCmd) ∧
    (∀ t p v w, commandToken t = some (("help").toList) →
      dispatch (.message (some t) p v w) = some .helpCmd) ∧
    (∀ t p v w, commandToken t = some (("clear").toList) →
      dispatch (.message (some t) p v w) = some .clearCmd) ∧
    (∀ t p v w, commandToken t = some (("quiz").toList) →
      dispatch (.message (some t) p v w) = some .quizCmd) ∧
    (∀ t p v w, commandToken t = some (("progress").toList) →
      dispatch (.message (some t) p v w) = some .progressCmd) ∧
    (∀ t p v w, commandToken t = some (("subjects").toList) →
      dispatch (.message (some t) p v w) = some .subjectsCmd) ∧
    (∀ dta, dispatch (.callbackQuery dta) = some .callbackRoute) ∧
    (∀ v w, dispatch (.message none true v w) = some .photoRoute) ∧
    (∀ w, dispatch (.message none false true w) = some .videoRoute) ∧
    (dispatch (.message none false false true) = some .voiceRoute) ∧
    (∀ t, startsWithSlash t = false → t ≠ [] →
      dispatch (.message (some t) false false false) = some .textRoute) := by
  refine ⟨?_, ?_, ?_, ?_, ?_, ?_, ?_, ?_, ?_, ?_, ?_, ?_⟩
  · intro t p v w hs hcontra
    have hx := dispatch_textRoute_check hcontra
    simp [isTextNonCommandEvent, hs] at hx
  · intro t p v w h
    simp [dispatch, isCommandEvent_message, h]
  · intro t p v w h
    simp [dispatch, isCommandEvent_message, h]
  · intro t p v w h
    simp [dispatch, isCommandEvent_message, h]
  · intro t p v w h
    simp [dispatch, isCommandEvent_message, h]
  · intro t p v w h
    simp [dispatch, isCommandEvent_message, h]
  · intro t p v w h
    simp [dispatch, isCommandEvent_message, h]
  · intro dta
    rfl
  · intro v w
    rfl
  · intro w
    rfl
  · rfl
  · intro t hs hne
    have hn := commandToken_none_of_no_slash hs
    simp [dispatch, isCommandEvent_message, hn, isCallbackEvent, isPhotoEvent, isVideoEvent,
      isVoiceEvent, isTextNonCommandEvent, hs, hne]

/-- C9 witness: concrete routings — `/start` to the start command, `/quiz`
never to the text handler, a button press to the callback handler, and a
plain greeting to the text handler. -/
theorem c9_dispatch_priority_witness :
    dispatch (.message (some (("/start").toList)) false false false) = some .startCmd ∧
    dispatch (.message (some (("/quiz").toList)) false false false) ≠ some .textRoute ∧
    dispatch (.callbackQuery (("generate_quiz").toList)) = some .callbackRoute ∧
    dispatch (.message (some (("hello").toList)) false false false) = some .textRoute :=
  ⟨c9_dispatch_priority.2.1 (("/start").toList) false false false (by decide),
   c9_dispatch_priority.1 (("/quiz").toList) false false false (by decide),
   c9_dispatch_priority.2.2.2.2.2.2.2.1 (("generate_quiz").toList),
   c9_dispatch_priority.2.2.2.2.2.2.2.2.2.2.2 (("hello").toList) (by decide) (by decide)⟩
